import Mathlib

set_option maxRecDepth 200000

/-!
Verification development for the NetConnect repository: a shallow embedding
of its WiFi-connect / captive-portal login flow, startup-script generation
and autostart registration, with theorems checking the natural-language
specification against the code.

Side effects (terminal output, HTTP requests, spawned commands, filesystem
and registry writes) are modelled as an explicit event trace; external
outcomes (HTTP responses, command results, user input) are parameters.
-/

namespace NetConnect

/-- Observable side effects of the program, in program order. -/
inductive Event where
  | spinStart : Event
  | spinJoin : Event
  | stdoutWrite (s : String) : Event
  | printLine (s : String) : Event
  | readInput (prompt : String) : Event
  | httpPost (url : String) (payload : List (String × String)) (timeoutSec : Nat) : Event
  | httpGet (url : String) (timeoutSec : Nat) : Event
  | runCmd (argv : List String) : Event
  | mkdirP (path : String) : Event
  | fileWrite (path : String) (content : String) : Event
  | fileRead (path : String) : Event
  | chmodExec (path : String) : Event
  | regSetValue (valueName : String) (valueData : String) : Event
  | sleepSec (n : Nat) : Event
  deriving Repr, BEq, DecidableEq

namespace Event

def isHttpPost : Event → Bool
  | .httpPost _ _ _ => true
  | _ => false

def isHttpRequest : Event → Bool
  | .httpPost _ _ _ => true
  | .httpGet _ _ => true
  | _ => false

def isTerminalOutput : Event → Bool
  | .printLine _ => true
  | .stdoutWrite _ => true
  | _ => false

def isSpinJoin : Event → Bool
  | .spinJoin => true
  | _ => false

def isFileWrite : Event → Bool
  | .fileWrite _ _ => true
  | _ => false

end Event

/-! ## src/net/portalAuth.py -/

/-- `LOGIN_URL` constant of `src/net/portalAuth.py`. -/
def LOGIN_URL : String :=
  "http://phc.prontonetworks.com/cgi-bin/authlogin?URI=http://detectportal.firefox.com/canonical.html"

/-- Outcome of the `requests.post` call: either a response with a status
code, or a `requests.exceptions.RequestException` (DNS failure, connection
refused, timeout, ...). -/
inductive HttpPostResult where
  | response (statusCode : Nat) : HttpPostResult
  | requestException (msg : String) : HttpPostResult
  deriving Repr, BEq, DecidableEq

namespace Spinner

/-- `Spinner.stop` of `src/net/portalAuth.py`: clears the busy flag, joins
the spinner thread, then writes the completion line. -/
def stopEvents : List Event :=
  [.spinJoin, .stdoutWrite "\r✅ Login Attempted.        \n"]

end Spinner

/-- The caller-visible return value together with the main-thread event
trace of one `login` call. -/
structure LoginRun where
  retval : Bool
  events : List Event
  deriving Repr

/-- The `payload` dict built at the top of `login` in
`src/net/portalAuth.py`. -/
def loginPayload (username password : String) : List (String × String) :=
  [("userId", username), ("password", password), ("serviceName", "ProntoAuthentication")]

/-- `login` of `src/net/portalAuth.py`: start the spinner, issue the POST,
stop the spinner, then report the outcome.  A `RequestException` raised by
the POST is caught: the spinner is stopped and `False` returned. -/
def login (username password : String) (postResult : HttpPostResult) : LoginRun :=
  let payload := loginPayload username password
  match postResult with
  | .response status =>
    { retval := status == 200
      events := [.spinStart, .httpPost LOGIN_URL payload 10] ++ Spinner.stopEvents ++
        (if status == 200 then
          [.printLine "✅ Login successful."]
        else
          [.printLine ("⚠️ Login returned status code " ++ toString status ++ ".")]) }
  | .requestException msg =>
    { retval := false
      events := [.spinStart, .httpPost LOGIN_URL payload 10] ++ Spinner.stopEvents ++
        [.printLine ("❌ Login failed: " ++ msg)] }

/-- Last line printed (via `print`) during a login run. -/
def finalPrint (r : LoginRun) : Option String :=
  (r.events.filterMap fun e => match e with | .printLine s => some s | _ => none).getLast?

/-- `s` starts with the character `c`. -/
def startsWithChar (c : Char) (s : String) : Bool :=
  s.data.head? == some c

/-- A transport-failure diagnostic (the `❌ Login failed:` line) was printed
during the run. -/
def printedTransportDiag (r : LoginRun) : Bool :=
  r.events.any fun e =>
    match e with
    | .printLine s => startsWithChar '❌' s
    | _ => false

/-! ## String containment helper -/

/-- `sub` occurs contiguously in `l`. -/
def charsContain (sub : List Char) : List Char → Bool
  | [] => sub.isEmpty
  | c :: rest => sub.isPrefixOf (c :: rest) || charsContain sub rest

/-- `sub` is a substring of `s` (models Python's `sub in s`). -/
def containsSubstr (s sub : String) : Bool :=
  charsContain sub.data s.data

/-- Strip leading and trailing whitespace (model of `.Trim()` /
Python's `.strip()`). -/
def strTrim (s : String) : String :=
  String.mk (((s.data.dropWhile Char.isWhitespace).reverse.dropWhile
    Char.isWhitespace).reverse)

/-- Lower-case a string (model of Python's `.lower()`). -/
def lowerStr (s : String) : String :=
  String.mk (s.data.map Char.toLower)

/-- Number of occurrences of the character `c` in `s`. -/
def countChar (c : Char) (s : String) : Nat :=
  (s.data.filter (fun x => x == c)).length

/-! ## src/wifi/wifiConnector.py -/

/-- Result of one `connect` call: the event trace and, when `sys.exit` was
invoked, the process exit code. -/
structure ConnectRun where
  events : List Event
  exitCode : Option Nat
  deriving Repr

/-- Outcome of `subprocess.run(["netsh", ...], capture_output=True)`:
either it completed (with this stdout) or it raised. -/
inductive WinRunOutcome where
  | completed (stdout : String)
  | raised (msg : String)
  deriving Repr, BEq, DecidableEq

namespace WindowsWiFiConnector

def connectCmd (ssid : String) : List String :=
  ["netsh", "wlan", "connect", "name=" ++ ssid]

/-- `WindowsWiFiConnector.connect` of `src/wifi/wifiConnector.py`: success
is pattern-matching stdout for the completion phrase; any other output is
logged and the method returns normally; only a raised exception exits. -/
def connect (ssid : String) (outcome : WinRunOutcome) : ConnectRun :=
  match outcome with
  | .completed stdout =>
    if containsSubstr stdout "Connection request was completed successfully" then
      { events := [.runCmd (connectCmd ssid),
          .printLine ("✅ Connected to " ++ ssid ++ " on Windows.")]
        exitCode := none }
    else
      { events := [.runCmd (connectCmd ssid),
          .printLine ("⚠️ Connection may have failed:\n" ++ stdout)]
        exitCode := none }
  | .raised msg =>
    { events := [.runCmd (connectCmd ssid),
        .printLine ("❌ Error connecting on Windows: " ++ msg)]
      exitCode := some 1 }

end WindowsWiFiConnector

/-- Outcome of `subprocess.run(["nmcli", ...], check=True)`. -/
inductive PosixRunOutcome where
  | ok
  | calledProcessError
  | fileNotFound
  deriving Repr, BEq, DecidableEq

namespace LinuxWiFiConnector

def connectCmd (ssid : String) : List String :=
  ["nmcli", "dev", "wifi", "connect", ssid]

/-- `LinuxWiFiConnector.connect` of `src/wifi/wifiConnector.py`: a non-zero
exit of `nmcli` (`CalledProcessError`) or a missing `nmcli`
(`FileNotFoundError`) is a hard failure: `sys.exit(1)`. -/
def connect (ssid : String) (outcome : PosixRunOutcome) : ConnectRun :=
  match outcome with
  | .ok =>
    { events := [.runCmd (connectCmd ssid),
        .printLine (" Connected to " ++ ssid ++ " on Linux.")]
      exitCode := none }
  | .fileNotFound =>
    { events := [.runCmd (connectCmd ssid),
        .printLine " nmcli not found. Are you on a minimal distro?"]
      exitCode := some 1 }
  | .calledProcessError =>
    { events := [.runCmd (connectCmd ssid),
        .printLine " Failed to connect on Linux."]
      exitCode := some 1 }

end LinuxWiFiConnector

namespace MacOSWiFiConnector

def connectCmd (interface ssid : String) : List String :=
  ["networksetup", "-setairportnetwork", interface, ssid]

/-- `MacOSWiFiConnector.connect` of `src/wifi/wifiConnector.py`
(default interface label `Wi-Fi`): non-zero exit is a hard failure. -/
def connect (interface ssid : String) (outcome : PosixRunOutcome) : ConnectRun :=
  match outcome with
  | .ok =>
    { events := [.runCmd (connectCmd interface ssid),
        .printLine (" Connected to " ++ ssid ++ " on macOS.")]
      exitCode := none }
  | _ =>
    { events := [.runCmd (connectCmd interface ssid),
        .printLine " Failed to connect on macOS. Check SSID or interface."]
      exitCode := some 1 }

end MacOSWiFiConnector

/-- A spawned command is one of the three native WiFi-connect invocations
used in `src/wifi/wifiConnector.py` and in the generated scripts. -/
def Event.isWifiConnectCmd : Event → Bool
  | .runCmd argv =>
      argv.take 3 == ["netsh", "wlan", "connect"]
      || argv.take 4 == ["nmcli", "dev", "wifi", "connect"]
      || argv.take 2 == ["networksetup", "-setairportnetwork"]
  | _ => false

def Event.isHttpGet : Event → Bool
  | .httpGet _ _ => true
  | _ => false

/-- Join script lines with newlines (the template literals below are
multi-line strings; this recovers the full text). -/
def joinLines : List String → String
  | [] => ""
  | [l] => l
  | l :: l2 :: rest => l ++ "\n" ++ joinLines (l2 :: rest)

/-! ## src/startup/startupGenerator.py — the three script templates

The templates are Python string literals; the constants below are their
values after Python escape processing (`\\` becomes `\`, and in the macOS
template a backslash before a newline joins the lines).  Literal braces are
written `\x7b`/`\x7d`, apostrophes `\x27` and backticks `\x60`. -/

/-- `script_content` of `_generate_windows_script`, line by line. -/
def windowsScriptLines : List String :=
  [ ""
  , "            # WiFi Auto Connect Script"
  , "            $ErrorActionPreference = \"Stop\""
  , "            [Console]::CursorVisible = $false"
  , ""
  , "            # Load credentials from file"
  , "            $credentialsFile = Join-Path -Path $HOME -ChildPath \".wifi_auto_login/credentials.json\""
  , "            try \x7b"
  , "                $credentials = Get-Content -Path $credentialsFile -Raw | ConvertFrom-Json"
  , "                $wifiSSID = $credentials.ssid"
  , "                $USERNAME = $credentials.username"
  , "                $PASSWORD = $credentials.password"
  , "            \x7d catch \x7b"
  , "                Write-Host \"Error loading credentials: $_\""
  , "                exit 1"
  , "            \x7d"
  , ""
  , "            # Set Captive Portal Login URL"
  , "            $LOGIN_URL = \"$LOGIN_URL = \"http://phc.prontonetworks.com/cgi-bin/authlogin?URI=http://detectportal.firefox.com/canonical.html\""
  , ""
  , "            # Get connected SSID"
  , "            function Get-ConnectedSSID \x7b"
  , "                $output = netsh wlan show interfaces"
  , "                $match = ($output | Select-String \x27^\\s*SSID\\s*:\\s*(.+)$\x27)"
  , "                if ($match) \x7b"
  , "                    return ($match.Matches.Groups[1].Value.Trim())"
  , "                \x7d"
  , "                return $null"
  , "            \x7d"
  , ""
  , "            # Connect to WiFi"
  , "            function Connect-ToWiFi \x7b"
  , "                Write-Host \"Connecting to Wi-Fi: $wifiSSID ...\""
  , "                netsh wlan connect name=\"$wifiSSID\" | Out-Null"
  , "                Start-Sleep -Seconds 4"
  , "                $ssid = Get-ConnectedSSID"
  , "                if ($ssid -ieq $wifiSSID) \x7b"
  , "                    return $true"
  , "                \x7d"
  , "                return $false"
  , "            \x7d"
  , ""
  , "            # Detect Captive Portal"
  , "            function NeedsLogin \x7b"
  , "                try \x7b"
  , "                    $response = Invoke-WebRequest -Uri \"http://detectportal.firefox.com/success.txt\" -UseBasicParsing -TimeoutSec 5"
  , "                    return ($response.StatusCode -ne 200 -or $response.Content.Trim() -ne \"success\")"
  , "                \x7d catch \x7b"
  , "                    return $true"
  , "                \x7d"
  , "            \x7d"
  , ""
  , "            # Main"
  , "            if (-not (Connect-ToWiFi)) \x7b"
  , "                Write-Host \"Could not verify Wi-Fi connection. Proceeding anyway...\""
  , "            \x7d"
  , ""
  , "            if (NeedsLogin) \x7b"
  , "                Write-Host \"Attempting to log in to the captive portal...\""
  , "                try \x7b"
  , "                    Invoke-WebRequest -Uri $LOGIN_URL -Method POST -Body @\x7b"
  , "                        \"userId\"      = $USERNAME"
  , "                        \"password\"    = $PASSWORD"
  , "                        \"serviceName\" = \"ProntoAuthentication\""
  , "                    \x7d -UseBasicParsing -TimeoutSec 10 | Out-Null"
  , ""
  , "                    Write-Host \"\x60nConnected successfully without browser pop-up!\""
  , "                \x7d catch \x7b"
  , "                    Write-Host \"Login failed. Please check your credentials or network.\""
  , "                \x7d"
  , "            \x7d else \x7b"
  , "                Write-Host \"Already connected. No captive portal detected.\""
  , "            \x7d"
  , ""
  , "            Write-Host \"Connection setup complete. Stabilizing...\""
  , "            Start-Sleep -Seconds 90  # Hold script alive for 90 seconds after login to stabilize"
  , ""
  , "            [Console]::CursorVisible = $true"
  , "            " ]

/-- The PowerShell artifact written to `wifi_connect.ps1`. -/
def windowsScriptContent : String :=
  joinLines windowsScriptLines

/-- `script_content` of `_generate_linux_script`, line by line (the
template's `\\` render as a single backslash). -/
def linuxScriptLines : List String :=
  [ "#!/bin/bash"
  , "        # WiFi Auto Connect Script for Linux"
  , ""
  , "        # Hide the cursor"
  , "        tput civis"
  , ""
  , "        # Load credentials from file"
  , "        CREDENTIALS_FILE=\"$HOME/.wifi_auto_login/credentials.json\""
  , "        if [ ! -f \"$CREDENTIALS_FILE\" ]; then"
  , "            echo \"Credentials file not found: $CREDENTIALS_FILE\""
  , "            exit 1"
  , "        fi"
  , ""
  , "        # Parse JSON - requires jq"
  , "        if ! command -v jq &> /dev/null; then"
  , "            echo \"Error: jq is required but not installed. Please install jq.\""
  , "            exit 1"
  , "        fi"
  , ""
  , "        WIFI_SSID=$(jq -r \x27.ssid\x27 \"$CREDENTIALS_FILE\")"
  , "        USERNAME=$(jq -r \x27.username\x27 \"$CREDENTIALS_FILE\")"
  , "        PASSWORD=$(jq -r \x27.password\x27 \"$CREDENTIALS_FILE\")"
  , ""
  , "        # URL for login submission"
  , "        LOGIN_URL=\"http://phc.prontonetworks.com/cgi-bin/authlogin?URI=http://detectportal.firefox.com/canonical.html\""
  , ""
  , ""
  , "        # Connect to Wi-Fi network"
  , "        echo \"Connecting to Wi-Fi: $WIFI_SSID ...\""
  , "        nmcli dev wifi connect \"$WIFI_SSID\" || \x7b"
  , "            echo \"Failed to connect to $WIFI_SSID\""
  , "            tput cnorm  # Show cursor before exit"
  , "            exit 1"
  , "        \x7d"
  , ""
  , "        # Make the login request silently"
  , "        echo \"Attempting to log in to captive portal...\""
  , "        \x7b"
  , "            curl -X POST \"$LOGIN_URL\" \\"
  , "                -d \"userId=$USERNAME\" \\"
  , "                -d \"password=$PASSWORD\" \\"
  , "                -d \"serviceName=ProntoAuthentication\" \\"
  , "                -s -o /dev/null "
  , "        \x7d && echo \"Connected successfully!\" || echo \"Failed to connect. Please check your credentials or network.\""
  , ""
  , "        # Show the cursor again"
  , "        tput cnorm"
  , "        " ]

/-- The bash artifact written to `wifi_connect.sh` on Linux. -/
def linuxScriptContent : String :=
  joinLines linuxScriptLines

/-- `script_content` of `_generate_macos_script`, line by line.  In that
template a single backslash ends each `curl` continuation line, so Python
escape processing joins the whole `curl` invocation into one line (the
backslash and the newline disappear; the next line's indentation stays). -/
def macosScriptLines : List String :=
  [ "#!/bin/bash"
  , "        # WiFi Auto Connect Script for Linux"
  , ""
  , "        # Hide the cursor"
  , "        tput civis"
  , ""
  , "        # Load credentials from file"
  , "        CREDENTIALS_FILE=\"$HOME/.wifi_auto_login/credentials.json\""
  , "        if [ ! -f \"$CREDENTIALS_FILE\" ]; then"
  , "            echo \"Credentials file not found: $CREDENTIALS_FILE\""
  , "            exit 1"
  , "        fi"
  , ""
  , "        # Parse JSON - requires jq"
  , "        if ! command -v jq &> /dev/null; then"
  , "            echo \"Error: jq is required but not installed. Please install jq.\""
  , "            exit 1"
  , "        fi"
  , ""
  , "        WIFI_SSID=$(jq -r \x27.ssid\x27 \"$CREDENTIALS_FILE\")"
  , "        USERNAME=$(jq -r \x27.username\x27 \"$CREDENTIALS_FILE\")"
  , "        PASSWORD=$(jq -r \x27.password\x27 \"$CREDENTIALS_FILE\")"
  , ""
  , "       # URL for login submission"
  , "        LOGIN_URL=\"http://phc.prontonetworks.com/cgi-bin/authlogin?URI=http://detectportal.firefox.com/canonical.html\""
  , ""
  , "        # Connect to the Wi-Fi network"
  , "        echo \"Connecting to the Wi-Fi...\""
  , "        networksetup -setairportnetwork \"$WIFI_SSID\""
  , ""
  , "        # Wait a few seconds to ensure the connection is up"
  , "        sleep 5"
  , ""
  , "        # Make the login request"
  , "        echo \"Logging in to captive portal...\""
  , "        \x7b"
  , "            curl -X POST \"$LOGIN_URL\"                 -d \"userId=$USERNAME\"                 -d \"password=$PASSWORD\"                 -d \"serviceName=ProntoAuthentication\"                 -s -o /dev/null"
  , "        \x7d && echo \"Connected successfully!\" || echo \"Failed to connect. Please check your credentials or network.\""
  , ""
  , "        # Show the cursor again"
  , "        tput cnorm"
  , "        " ]

/-- The bash artifact written to `wifi_connect.sh` on macOS. -/
def macosScriptContent : String :=
  joinLines macosScriptLines

/-! ## StartupGenerator paths and artifact rendering -/

inductive OSKind where
  | windows
  | linux
  | darwin
  deriving Repr, BEq, DecidableEq

/-- The spec's `PlatformProfile`: resolved OS kind plus the script and
autostart paths fixed by `StartupGenerator.__init__` /
`_create_startup_entry`. -/
structure PlatformProfile where
  os_kind : OSKind
  script_path : String
  autostart_path : String
  deriving Repr, BEq, DecidableEq

/-- `scripts_dir` chosen by `StartupGenerator.__init__` for a supported OS. -/
def scriptsDir (home app_name : String) : OSKind → String
  | .windows => home ++ "/AppData/Local/" ++ app_name
  | .linux => home ++ "/.local/share/" ++ lowerStr app_name
  | .darwin => home ++ "/Library/Application Support/" ++ app_name

/-- `script_path` chosen by `StartupGenerator.__init__`. -/
def scriptPath (home app_name : String) (k : OSKind) : String :=
  scriptsDir home app_name k ++ (match k with
    | .windows => "/wifi_connect.ps1"
    | _ => "/wifi_connect.sh")

/-- `StartupArtifactGenerator.render`: the script text written by
`_generate_connection_script` — a constant per OS kind (the templates
interpolate nothing from the profile). -/
def render (p : PlatformProfile) : String :=
  match p.os_kind with
  | .windows => windowsScriptContent
  | .linux => linuxScriptContent
  | .darwin => macosScriptContent

/-- The artifact's embedded login fields match the §6 contract: the fixed
endpoint URL and the `userId` / `password` /
`serviceName=ProntoAuthentication` payload fields all occur in the text. -/
def hasLoginContract (s : String) : Bool :=
  containsSubstr s LOGIN_URL
  && containsSubstr s "userId"
  && containsSubstr s "password"
  && containsSubstr s "ProntoAuthentication"

/-- Connectivity-probe URL of the generated Windows script's `NeedsLogin`
function — the marker of the detect step. -/
def PROBE_URL : String := "http://detectportal.firefox.com/success.txt"

/-! ## Execution models of the generated bash scripts

Only the two bash artifacts get execution models: the Windows PowerShell
artifact is not syntactically valid (its `$LOGIN_URL` line closes a string
and then continues with a bare token and an unterminated trailing quote,
leaving the whole file with an odd number of double quotes), and PowerShell
parses a script file completely before running any of it, so that artifact
executes nothing.  Facts about the Windows variant are therefore stated
about its text. -/

/-- One script execution: event trace plus process exit code. -/
structure ScriptRun where
  events : List Event
  exitCode : Nat
  deriving Repr

/-- The generated Linux bash script: check credentials file, check `jq`,
read the three fields, `nmcli` connect (exit 1 on failure, with no probe
and no login), then the `curl` POST unconditionally — the script has no
portal-detect step. -/
def linuxScriptRun (credsFileExists jqInstalled : Bool) (ssid username password : String)
    (connectOk curlOk : Bool) : ScriptRun :=
  let credsPath := "$HOME/.wifi_auto_login/credentials.json"
  if !credsFileExists then
    { events := [Event.runCmd ["tput", "civis"],
        Event.printLine ("Credentials file not found: " ++ credsPath)]
      exitCode := 1 }
  else if !jqInstalled then
    { events := [Event.runCmd ["tput", "civis"],
        Event.printLine "Error: jq is required but not installed. Please install jq."]
      exitCode := 1 }
  else
    let prefixEvents :=
      [Event.runCmd ["tput", "civis"],
       Event.runCmd ["jq", "-r", ".ssid", credsPath],
       Event.runCmd ["jq", "-r", ".username", credsPath],
       Event.runCmd ["jq", "-r", ".password", credsPath],
       Event.printLine ("Connecting to Wi-Fi: " ++ ssid ++ " ..."),
       Event.runCmd ["nmcli", "dev", "wifi", "connect", ssid]]
    if !connectOk then
      { events := prefixEvents ++
          [Event.printLine ("Failed to connect to " ++ ssid),
           Event.runCmd ["tput", "cnorm"]]
        exitCode := 1 }
    else
      { events := prefixEvents ++
          [Event.printLine "Attempting to log in to captive portal...",
           Event.httpPost LOGIN_URL
             [("userId", username), ("password", password),
              ("serviceName", "ProntoAuthentication")] 0,
           Event.printLine (if curlOk then "Connected successfully!"
             else "Failed to connect. Please check your credentials or network."),
           Event.runCmd ["tput", "cnorm"]]
        exitCode := 0 }

/-- The generated macOS bash script: same load steps, `networksetup`
connect whose failure is not checked, settle sleep, then the `curl` POST
unconditionally — again no portal-detect step. -/
def macosScriptRun (credsFileExists jqInstalled : Bool) (ssid username password : String)
    (curlOk : Bool) : ScriptRun :=
  let credsPath := "$HOME/.wifi_auto_login/credentials.json"
  if !credsFileExists then
    { events := [Event.runCmd ["tput", "civis"],
        Event.printLine ("Credentials file not found: " ++ credsPath)]
      exitCode := 1 }
  else if !jqInstalled then
    { events := [Event.runCmd ["tput", "civis"],
        Event.printLine "Error: jq is required but not installed. Please install jq."]
      exitCode := 1 }
  else
    { events :=
        [Event.runCmd ["tput", "civis"],
         Event.runCmd ["jq", "-r", ".ssid", credsPath],
         Event.runCmd ["jq", "-r", ".username", credsPath],
         Event.runCmd ["jq", "-r", ".password", credsPath],
         Event.printLine "Connecting to the Wi-Fi...",
         Event.runCmd ["networksetup", "-setairportnetwork", ssid],
         Event.sleepSec 5,
         Event.printLine "Logging in to captive portal...",
         Event.httpPost LOGIN_URL
           [("userId", username), ("password", password),
            ("serviceName", "ProntoAuthentication")] 0,
         Event.printLine (if curlOk then "Connected successfully!"
           else "Failed to connect. Please check your credentials or network."),
         Event.runCmd ["tput", "cnorm"]]
      exitCode := 0 }

/-! ## StartupRegistrar — `_create_*_startup` of src/startup/startupGenerator.py

Filesystem and registry state is a keyed store: directories, file contents,
executable bits, and the values under the current user's Run key.  The
models cover the success path of each OS-specific method; each method's
`except` branch only logs and returns `False` without touching state. -/

/-- Host state touched by startup registration. -/
structure SysState where
  dirs : List String
  files : List (String × String)
  execBits : List String
  registry : List (String × String)
  runKeyExists : Bool
  deriving Repr, BEq, DecidableEq

/-- `mkdir(parents=True, exist_ok=True)`: add a directory if missing. -/
def insertOnce (x : String) (l : List String) : List String :=
  if x ∈ l then l else x :: l

/-- Keyed overwrite: `open(path, "w")` / `reg.SetValueEx` replace any
existing entry under the same key. -/
def setEntry (key value : String) (l : List (String × String)) : List (String × String) :=
  (key, value) :: l.filter (fun kv => kv.1 != key)

/-- Number of entries stored under `key`. -/
def countKey (key : String) (l : List (String × String)) : Nat :=
  (l.filter (fun kv => kv.1 == key)).length

/-- Result of one registration call: resulting state and event trace. -/
structure RegRun where
  state : SysState
  events : List Event
  deriving Repr

/-- `powershell_command` of `_create_windows_startup`. -/
def powershellCommand (script_path : String) : String :=
  "powershell.exe -ExecutionPolicy Bypass -WindowStyle Hidden -File \"" ++ script_path ++ "\""

/-- `desktop_content` of `_create_linux_startup` (the f-string keeps the
source's indentation). -/
def desktopContent (app_name script_path : String) : String :=
  joinLines
    [ "[Desktop Entry]"
    , "            Name=" ++ app_name
    , "            Exec=" ++ script_path
    , "            Type=Application"
    , "            X-GNOME-Autostart-enabled=true"
    , "            " ]

/-- `plist_content` of `_create_macos_startup`. -/
def plistContent (app_name script_path : String) : String :=
  joinLines
    [ "<?xml version=\"1.0\" encoding=\"UTF-8\"?>"
    , "            <!DOCTYPE plist PUBLIC \"-//Apple//DTD PLIST 1.0//EN\" \"http://www.apple.com/DTDs/PropertyList-1.0.dtd\">"
    , "            <plist version=\"1.0\">"
    , "            <dict>"
    , "                <key>Label</key>"
    , "                <string>com." ++ lowerStr app_name ++ ".autoconnect</string>"
    , "                <key>ProgramArguments</key>"
    , "                <array>"
    , "                    <string>" ++ script_path ++ "</string>"
    , "                </array>"
    , "                <key>RunAtLoad</key>"
    , "                <true/>"
    , "                <key>KeepAlive</key>"
    , "                <false/>"
    , "            </dict>"
    , "            </plist>"
    , "            " ]

/-- `_create_windows_startup`: `reg.OpenKey` on the existing Run key, then
`reg.SetValueEx` overwrites the value named after the app; a missing key
raises, which is caught and only logged. -/
def createWindowsStartup (app_name script_path : String) (s : SysState) : RegRun :=
  if s.runKeyExists then
    { state := { s with
        registry := setEntry app_name (powershellCommand script_path) s.registry }
      events := [.regSetValue app_name (powershellCommand script_path),
        .printLine ("Windows startup entry created for " ++ app_name)] }
  else
    { state := s
      events := [.printLine "Failed to create Windows startup entry: FileNotFoundError"] }

/-- `_create_linux_startup`: `mkdir(parents=True, exist_ok=True)` on the
autostart directory, overwrite the `.desktop` file, chmod it executable. -/
def createLinuxStartup (home app_name script_path : String) (s : SysState) : RegRun :=
  let autostart_dir := home ++ "/.config/autostart"
  let desktop_file_path := autostart_dir ++ "/" ++ lowerStr app_name ++ ".desktop"
  let content := desktopContent app_name script_path
  { state := { s with
      dirs := insertOnce autostart_dir s.dirs
      files := setEntry desktop_file_path content s.files
      execBits := insertOnce desktop_file_path s.execBits }
    events := [.mkdirP autostart_dir,
      .fileWrite desktop_file_path content,
      .chmodExec desktop_file_path,
      .printLine ("Linux startup entry created at " ++ desktop_file_path)] }

/-- `_create_macos_startup`: ensure the LaunchAgents directory, overwrite
the plist, run `launchctl load` (a failure there is only a logged
warning). -/
def createMacosStartup (home app_name script_path : String) (launchctlOk : Bool)
    (s : SysState) : RegRun :=
  let launch_agents_dir := home ++ "/Library/LaunchAgents"
  let plist_file_path :=
    launch_agents_dir ++ "/com." ++ lowerStr app_name ++ ".autoconnect.plist"
  let content := plistContent app_name script_path
  { state := { s with
      dirs := insertOnce launch_agents_dir s.dirs
      files := setEntry plist_file_path content s.files }
    events := [.mkdirP launch_agents_dir,
      .fileWrite plist_file_path content,
      .runCmd ["launchctl", "load", plist_file_path]]
      ++ (if launchctlOk then []
          else [.printLine "Warning: Could not load the LaunchAgent immediately. It will load on next login."])
      ++ [.printLine ("macOS startup entry created and loaded at " ++ plist_file_path)] }

/-! ## src/main.py, src/menu/menuHandler.py, src/user/userManager.py,
src/utils/platformUtils.py — the interactive entry point -/

/-- The value of `platform.system()`. -/
inductive OSName where
  | windows
  | linux
  | darwin
  | other (s : String)
  deriving Repr, BEq, DecidableEq

def OSName.str : OSName → String
  | .windows => "Windows"
  | .linux => "Linux"
  | .darwin => "Darwin"
  | .other s => s

/-- The supported OS kind, `none` when `StartupGenerator.__init__` raises
`OSError`. -/
def OSName.toKind? : OSName → Option OSKind
  | .windows => some .windows
  | .linux => some .linux
  | .darwin => some .darwin
  | .other _ => none

/-- A stored credentials record (`~/.wifi_auto_login/credentials.json`). -/
structure Cred where
  ssid : String
  username : String
  password : String
  deriving Repr, BEq, DecidableEq

/-- The JSON rendering of `json.dump` on the credentials dict. -/
def credJson (c : Cred) : String :=
  "\x7b\"ssid\": \"" ++ c.ssid ++ "\", \"username\": \"" ++ c.username
    ++ "\", \"password\": \"" ++ c.password ++ "\"\x7d"

/-- Environment of one `main` run: splash file, stored credentials, and
which setup steps (directory creation, script write, registry key,
launchctl) would fail on this host. -/
structure MainEnv where
  home : String
  splash : Option String
  creds : Option Cred
  scriptsDirMkdirFails : Bool
  scriptWriteFails : Bool
  runKeyExists : Bool
  launchctlOk : Bool
  deriving Repr, BEq, DecidableEq

/-- Consume the next `input()` from the stream (empty string at EOF). -/
def nextInput : List String → String × List String
  | [] => ("", [])
  | i :: rest => (i, rest)

/-- `clear_screen` of `src/utils/platformUtils.py`. -/
def clear_screen (os : OSName) : List Event :=
  let t := lowerStr (OSName.str os)
  if t == "windows" then [.runCmd ["cls"]]
  else if t == "linux" || t == "darwin" then [.runCmd ["clear"]]
  else [.printLine (String.mk (List.replicate 100 '\n'))]

/-- `show_splash` of `src/main.py`. -/
def show_splash (splash : Option String) : List Event :=
  match splash with
  | some txt => [.fileRead "assets/splash.txt", .printLine txt]
  | none => [.printLine "=== WiFi Auto Login ==="]

/-- `UserManager.create_new_user`: prompt for the three fields, re-prompt
while any is empty, then save.  Recursion on empty input is bounded by
fuel. -/
def create_new_user (home : String) : Nat → List String → List Event × List String
  | 0, inputs => ([], inputs)
  | fuel + 1, inputs =>
    let ssid := strTrim (nextInput inputs).1
    let r1 := (nextInput inputs).2
    let username := strTrim (nextInput r1).1
    let r2 := (nextInput r1).2
    let password := strTrim (nextInput r2).1
    let r3 := (nextInput r2).2
    let readEvents : List Event :=
      [.readInput "Enter Wi-Fi SSID ( NAME OF WIFI e.g G-VIT,LHG-VIT,E-VIT): ",
       .readInput "Enter Username: ",
       .readInput "Enter Password: "]
    if ssid == "" || username == "" || password == "" then
      (readEvents ++ [.printLine "All fields are required."]
        ++ (create_new_user home fuel r3).1, (create_new_user home fuel r3).2)
    else
      (readEvents
        ++ [.fileWrite (home ++ "/.wifi_auto_login/credentials.json")
              (credJson ⟨ssid, username, password⟩),
            .printLine " Credentials saved successfully."], r3)

/-- `UserManager.edit_existing_user`: show current values, edit one field,
save; invalid choices re-prompt (bounded by fuel). -/
def edit_existing_user (home : String) (creds : Option Cred) :
    Nat → List String → List Event × List String
  | 0, inputs => ([], inputs)
  | fuel + 1, inputs =>
    match creds with
    | none => ([.printLine " No credentials found. Please create a new user first."], inputs)
    | some c =>
      let credsPath := home ++ "/.wifi_auto_login/credentials.json"
      let headEvents : List Event :=
        [.fileRead credsPath,
         .printLine ("\nCurrent SSID: " ++ c.ssid),
         .printLine ("Current Username: " ++ c.username),
         .printLine "[1] Edit SSID\n[2] Edit Username\n[3] Edit Password\n[4] Back",
         .readInput "Select field to edit: "]
      let choice := strTrim (nextInput inputs).1
      let rest := (nextInput inputs).2
      if choice == "1" then
        (headEvents ++ [.readInput "New SSID: ",
          .fileWrite credsPath (credJson { c with ssid := strTrim (nextInput rest).1 }),
          .printLine " Updated successfully."], (nextInput rest).2)
      else if choice == "2" then
        (headEvents ++ [.readInput "New Username: ",
          .fileWrite credsPath (credJson { c with username := strTrim (nextInput rest).1 }),
          .printLine " Updated successfully."], (nextInput rest).2)
      else if choice == "3" then
        (headEvents ++ [.readInput "New Password: ",
          .fileWrite credsPath (credJson { c with password := strTrim (nextInput rest).1 }),
          .printLine " Updated successfully."], (nextInput rest).2)
      else if choice == "4" then
        (headEvents, rest)
      else
        (headEvents ++ [.printLine "Invalid choice."]
          ++ (edit_existing_user home creds fuel rest).1,
         (edit_existing_user home creds fuel rest).2)

/-- `MenuHandler.main_menu`: three options; invalid input re-prompts
(bounded by fuel); option 3 calls `exit(0)`. -/
def main_menu (home : String) (creds : Option Cred) :
    Nat → List String → List Event × Bool
  | 0, _ => ([], false)
  | fuel + 1, inputs =>
    let menuEvents : List Event :=
      [.printLine "\n[1] New User", .printLine "[2] Existing User", .printLine "[3] Exit",
       .readInput "\nEnter choice: "]
    let choice := strTrim (nextInput inputs).1
    let rest := (nextInput inputs).2
    if choice == "1" then
      (menuEvents ++ [.printLine "\n--- New User Setup ---"]
        ++ (create_new_user home fuel rest).1, false)
    else if choice == "2" then
      (menuEvents ++ [.printLine "\n--- Existing User Menu ---"]
        ++ (edit_existing_user home creds fuel rest).1, false)
    else if choice == "3" then
      (menuEvents ++ [.printLine "Exiting..."], true)
    else
      (menuEvents ++ [.printLine "Invalid choice. Try again."]
        ++ (main_menu home creds fuel rest).1, (main_menu home creds fuel rest).2)

/-- `StartupGenerator.setup_startup` for a supported OS: the whole body is
inside `try`; a raising `mkdir` or script write makes it return
`(False, msg)` — nothing propagates.  `_create_startup_entry` delegates to
the `_create_*_startup` methods, which catch their own errors and only
return `False`, so setup still returns `(True, msg)` after them. -/
def setup_startup (home : String) (k : OSKind) (env : MainEnv) :
    (Bool × String) × List Event :=
  if env.scriptsDirMkdirFails then
    ((false, "Failed to setup startup: mkdir failed"), [])
  else
    let dirEvents : List Event := [.mkdirP (scriptsDir home "NetConnect" k)]
    if env.scriptWriteFails then
      ((false, "Failed to setup startup: script write failed"), dirEvents)
    else
      let sp := scriptPath home "NetConnect" k
      let scriptEvents : List Event :=
        [.fileWrite sp (render ⟨k, sp, ""⟩)]
          ++ (match k with
              | .windows => []
              | _ => [.chmodExec sp])
      let st : SysState := ⟨[], [], [], [], env.runKeyExists⟩
      let entryEvents : List Event :=
        match k with
        | .windows => (createWindowsStartup "NetConnect" sp st).events
        | .linux => (createLinuxStartup home "NetConnect" sp st).events
        | .darwin => (createMacosStartup home "NetConnect" sp env.launchctlOk st).events
      ((true, "Startup configuration completed for " ++ (match k with
          | .windows => "Windows" | .linux => "Linux" | .darwin => "Darwin")),
        dirEvents ++ scriptEvents ++ entryEvents)

/-- `setup_startup` of `src/main.py`: only an exception escaping
`StartupGenerator()` / `.setup_startup()` triggers `sys.exit(1)` — and the
only such exception is the unsupported-OS `OSError` from `__init__`; the
`(success, message)` pair returned by `StartupGenerator.setup_startup` is
discarded. -/
def mainSetupStartup (os : OSName) (env : MainEnv) : List Event × Option Nat :=
  match os.toKind? with
  | none =>
    ([.printLine ("Error creating startup: Unsupported operating system: " ++ os.str)],
      some 1)
  | some k => ((setup_startup env.home k env).2, none)

/-- `main` of `src/main.py`: clear the screen, show the splash, construct
`MenuHandler` (whose `UserManager.__init__` mkdirs the credentials
directory), run the menu, then configure startup.  Returns the full event
trace and the process exit code. -/
def mainRun (os : OSName) (env : MainEnv) (inputs : List String) (fuel : Nat) :
    List Event × Nat :=
  let pre := clear_screen os ++ show_splash env.splash
    ++ [Event.mkdirP (env.home ++ "/.wifi_auto_login")]
  let menuEvents := (main_menu env.home env.creds fuel inputs).1
  if (main_menu env.home env.creds fuel inputs).2 then
    (pre ++ menuEvents, 0)
  else
    (pre ++ menuEvents ++ (mainSetupStartup os env).1,
      (mainSetupStartup os env).2.getD 0)

/-- An event the claim C2 forbids in `main`: an HTTP request or a native
WiFi-connect command. -/
def benign (e : Event) : Bool :=
  !Event.isHttpRequest e && !Event.isWifiConnectCmd e

end NetConnect

namespace NetConnect

/-- C5: for every username and password, `login` issues exactly one POST,
to the fixed portal URL, whose form body has exactly the three fields
`userId`, `password`, `serviceName`, the last with the constant value
`ProntoAuthentication`. -/
theorem login_exactly_one_post_fixed_payload (u p : String) (r : HttpPostResult) :
    (login u p r).events.filter Event.isHttpPost
      = [Event.httpPost LOGIN_URL (loginPayload u p) 10]
    ∧ (loginPayload u p).map Prod.fst = ["userId", "password", "serviceName"]
    ∧ (loginPayload u p).lookup "serviceName" = some "ProntoAuthentication" := by
  refine ⟨?_, rfl, rfl⟩
  cases r with
  | response status =>
    by_cases h : (status == 200) = true <;>
      simp [login, Spinner.stopEvents, Event.isHttpPost, h]
  | requestException msg =>
    simp [login, Spinner.stopEvents, Event.isHttpPost]

/-- C6: `login` reports success (returns `True`) exactly when the HTTP
status is 200; any other status—and any transport failure—returns `False`,
and in the response case the run ends with a printed report line rather
than an exception. -/
theorem login_success_iff_status_200 (u p m : String) (s : Nat) :
    (login u p (.response s)).retval = (s == 200)
    ∧ (login u p (.requestException m)).retval = false
    ∧ finalPrint (login u p (.response s))
        = some (if s == 200 then "✅ Login successful."
                else "⚠️ Login returned status code " ++ toString s ++ ".") := by
  refine ⟨rfl, rfl, ?_⟩
  by_cases h : (s == 200) = true <;>
    simp [login, finalPrint, Spinner.stopEvents, h]

/-- C7 counterexample: the value `login` returns to the caller is the same
(`False`) for a non-200 HTTP response and for a transport-level request
failure, so the caller cannot distinguish the two failure kinds from the
result — refuting the claim as stated. -/
theorem login_retval_not_distinguishing :
    (login "u" "p" (.response 503)).retval
      = (login "u" "p" (.requestException "timeout")).retval
    ∧ (503 : Nat) ≠ 200 := by
  exact ⟨rfl, by decide⟩

/-- C7 amended: the two failure kinds are distinguishable only in the
diagnostic line printed — a transport failure prints the `❌ Login failed:`
line, which no HTTP-response path ever prints — while the returned value is
`False` in both cases. -/
theorem login_failure_kinds_distinguished_by_diagnostic
    (u p m : String) (s : Nat) :
    printedTransportDiag (login u p (.requestException m)) = true
    ∧ printedTransportDiag (login u p (.response s)) = false
    ∧ (login u p (.requestException m)).retval = false := by
  refine ⟨rfl, ?_, rfl⟩
  by_cases h : (s == 200) = true <;>
    simp [login, printedTransportDiag, Spinner.stopEvents, startsWithChar, h,
      String.data_append]

/-- C9: on every path of `login` — success, non-200 response, transport
failure — no terminal output from the main flow precedes the spinner join,
the spinner is joined exactly once, and the completion line
`✅ Login Attempted.` is written. -/
theorem login_spinner_joined_before_output (u p : String) (r : HttpPostResult) :
    (∃ pre suf, (login u p r).events = pre ++ Event.spinJoin :: suf
      ∧ pre.filter Event.isTerminalOutput = [])
    ∧ ((login u p r).events.filter Event.isSpinJoin).length = 1
    ∧ Event.stdoutWrite "\r✅ Login Attempted.        \n" ∈ (login u p r).events := by
  cases r with
  | response status =>
    by_cases h : (status == 200) = true
    · refine ⟨⟨[.spinStart, .httpPost LOGIN_URL (loginPayload u p) 10],
        [.stdoutWrite "\r✅ Login Attempted.        \n", .printLine "✅ Login successful."],
        ?_, rfl⟩, ?_, ?_⟩ <;>
        simp [login, Spinner.stopEvents, Event.isSpinJoin, h]
    · refine ⟨⟨[.spinStart, .httpPost LOGIN_URL (loginPayload u p) 10],
        [.stdoutWrite "\r✅ Login Attempted.        \n",
          .printLine ("⚠️ Login returned status code " ++ toString status ++ ".")],
        ?_, rfl⟩, ?_, ?_⟩ <;>
        simp [login, Spinner.stopEvents, Event.isSpinJoin, h]
  | requestException msg =>
    refine ⟨⟨[.spinStart, .httpPost LOGIN_URL (loginPayload u p) 10],
      [.stdoutWrite "\r✅ Login Attempted.        \n",
        .printLine ("❌ Login failed: " ++ msg)],
      ?_, rfl⟩, ?_, ?_⟩ <;>
      simp [login, Spinner.stopEvents, Event.isSpinJoin]

/-! ## Substring lemmas for the script-content checks -/

theorem isPrefixOf_append_of_isPrefixOf (sub : List Char) :
    ∀ t r : List Char, sub.isPrefixOf t = true → sub.isPrefixOf (t ++ r) = true := by
  induction sub with
  | nil => intro t r _; simp [List.isPrefixOf]
  | cons a as ih =>
    intro t r h
    cases t with
    | nil => simp [List.isPrefixOf] at h
    | cons b bs =>
      simp only [List.cons_append, List.isPrefixOf, Bool.and_eq_true] at h ⊢
      exact ⟨h.1, ih bs r h.2⟩

theorem charsContain_nil_left : ∀ r : List Char, charsContain [] r = true
  | [] => rfl
  | _ :: _ => rfl

theorem charsContain_append_left (sub : List Char) :
    ∀ l r : List Char, charsContain sub l = true → charsContain sub (l ++ r) = true := by
  intro l
  induction l with
  | nil =>
    intro r h
    simp only [charsContain, List.isEmpty_iff] at h
    subst h
    exact charsContain_nil_left r
  | cons c l2 ih =>
    intro r h
    simp only [charsContain, Bool.or_eq_true] at h ⊢
    rcases h with h | h
    · exact Or.inl (isPrefixOf_append_of_isPrefixOf sub (c :: l2) r h)
    · exact Or.inr (ih r h)

theorem charsContain_append_right (sub : List Char) :
    ∀ l r : List Char, charsContain sub r = true → charsContain sub (l ++ r) = true := by
  intro l
  induction l with
  | nil => intro r h; exact h
  | cons c l2 ih =>
    intro r h
    simp only [List.cons_append, charsContain, Bool.or_eq_true]
    exact Or.inr (ih r h)

theorem containsSubstr_append_left (a b sub : String)
    (h : containsSubstr a sub = true) : containsSubstr (a ++ b) sub = true := by
  unfold containsSubstr at h ⊢
  rw [String.data_append]
  exact charsContain_append_left _ _ _ h

theorem containsSubstr_append_right (a b sub : String)
    (h : containsSubstr b sub = true) : containsSubstr (a ++ b) sub = true := by
  unfold containsSubstr at h ⊢
  rw [String.data_append]
  exact charsContain_append_right _ _ _ h

theorem containsSubstr_joinLines (sub : String) :
    ∀ (lines : List String) (l : String), l ∈ lines →
      containsSubstr l sub = true → containsSubstr (joinLines lines) sub = true := by
  intro lines
  induction lines with
  | nil => intro l hmem; cases hmem
  | cons hd tl ih =>
    intro l hmem h
    cases tl with
    | nil =>
      rcases List.mem_singleton.mp hmem with rfl
      exact h
    | cons t ts =>
      rcases List.mem_cons.mp hmem with rfl | hmem2
      · show containsSubstr (l ++ "\n" ++ joinLines (t :: ts)) sub = true
        exact containsSubstr_append_left _ _ _ (containsSubstr_append_left _ _ _ h)
      · show containsSubstr (hd ++ "\n" ++ joinLines (t :: ts)) sub = true
        exact containsSubstr_append_right _ _ _ (ih l hmem2 h)

/-! ## Facts about the rendered script texts -/

theorem windowsScript_login_contract : hasLoginContract windowsScriptContent = true := by
  have h1 : containsSubstr windowsScriptContent LOGIN_URL = true :=
    containsSubstr_joinLines LOGIN_URL windowsScriptLines
      (windowsScriptLines.get ⟨18, by decide⟩) (List.get_mem _ _ _) (by decide)
  have h2 : containsSubstr windowsScriptContent "userId" = true :=
    containsSubstr_joinLines "userId" windowsScriptLines
      (windowsScriptLines.get ⟨61, by decide⟩) (List.get_mem _ _ _) (by decide)
  have h3 : containsSubstr windowsScriptContent "password" = true :=
    containsSubstr_joinLines "password" windowsScriptLines
      (windowsScriptLines.get ⟨62, by decide⟩) (List.get_mem _ _ _) (by decide)
  have h4 : containsSubstr windowsScriptContent "ProntoAuthentication" = true :=
    containsSubstr_joinLines "ProntoAuthentication" windowsScriptLines
      (windowsScriptLines.get ⟨63, by decide⟩) (List.get_mem _ _ _) (by decide)
  simp [hasLoginContract, h1, h2, h3, h4]

theorem linuxScript_login_contract : hasLoginContract linuxScriptContent = true := by
  have h1 : containsSubstr linuxScriptContent LOGIN_URL = true :=
    containsSubstr_joinLines LOGIN_URL linuxScriptLines
      (linuxScriptLines.get ⟨24, by decide⟩) (List.get_mem _ _ _) (by decide)
  have h2 : containsSubstr linuxScriptContent "userId" = true :=
    containsSubstr_joinLines "userId" linuxScriptLines
      (linuxScriptLines.get ⟨39, by decide⟩) (List.get_mem _ _ _) (by decide)
  have h3 : containsSubstr linuxScriptContent "password" = true :=
    containsSubstr_joinLines "password" linuxScriptLines
      (linuxScriptLines.get ⟨40, by decide⟩) (List.get_mem _ _ _) (by decide)
  have h4 : containsSubstr linuxScriptContent "ProntoAuthentication" = true :=
    containsSubstr_joinLines "ProntoAuthentication" linuxScriptLines
      (linuxScriptLines.get ⟨41, by decide⟩) (List.get_mem _ _ _) (by decide)
  simp [hasLoginContract, h1, h2, h3, h4]

theorem macosScript_login_contract : hasLoginContract macosScriptContent = true := by
  have h1 : containsSubstr macosScriptContent LOGIN_URL = true :=
    containsSubstr_joinLines LOGIN_URL macosScriptLines
      (macosScriptLines.get ⟨24, by decide⟩) (List.get_mem _ _ _) (by decide)
  have h2 : containsSubstr macosScriptContent "userId" = true :=
    containsSubstr_joinLines "userId" macosScriptLines
      (macosScriptLines.get ⟨36, by decide⟩) (List.get_mem _ _ _) (by decide)
  have h3 : containsSubstr macosScriptContent "password" = true :=
    containsSubstr_joinLines "password" macosScriptLines
      (macosScriptLines.get ⟨36, by decide⟩) (List.get_mem _ _ _) (by decide)
  have h4 : containsSubstr macosScriptContent "ProntoAuthentication" = true :=
    containsSubstr_joinLines "ProntoAuthentication" macosScriptLines
      (macosScriptLines.get ⟨36, by decide⟩) (List.get_mem _ _ _) (by decide)
  simp [hasLoginContract, h1, h2, h3, h4]

theorem windowsScript_has_probe : containsSubstr windowsScriptContent PROBE_URL = true :=
  containsSubstr_joinLines PROBE_URL windowsScriptLines
    (windowsScriptLines.get ⟨45, by decide⟩) (List.get_mem _ _ _) (by decide)

/-! ## Claim theorems about the generated scripts -/

/-- C1 (code bug): the generated Windows artifact — the only variant
whose template contains a `needs_login` probe — is not executable, so the
orchestrated flow never reaches the probe, never reports the
`ConnectedNoPortal` outcome, and issues zero POSTs only because nothing
runs.  Evidence in the rendered text: the `$LOGIN_URL` assignment prefix
appears twice in a row (a closed string followed by a bare token), the
whole artifact contains an odd number of double quotes with no
backtick-escaped quote anywhere (hence an unterminated string — a fatal
PowerShell parse error for the entire file), while both bash artifacts
have balanced quotes. -/
theorem windows_artifact_login_url_line_malformed :
    containsSubstr windowsScriptContent "$LOGIN_URL = \"$LOGIN_URL = \"" = true
    ∧ countChar '"' windowsScriptContent % 2 = 1
    ∧ containsSubstr windowsScriptContent "\x60\"" = false
    ∧ countChar '"' linuxScriptContent % 2 = 0
    ∧ countChar '"' macosScriptContent % 2 = 0 :=
  ⟨containsSubstr_joinLines "$LOGIN_URL = \"$LOGIN_URL = \"" windowsScriptLines
      (windowsScriptLines.get ⟨18, by decide⟩) (List.get_mem _ _ _) (by decide),
    by decide, by decide, by decide, by decide⟩

/-- C3 counterexample: the three rendered scripts do not implement an
identical load → connect → detect → login → report sequence: the Windows
script contains the portal-detect probe of the connectivity-check URL, but
the Linux and macOS scripts do not contain it anywhere — they have no
detect step. -/
theorem generated_scripts_not_in_lockstep :
    containsSubstr windowsScriptContent PROBE_URL = true
    ∧ containsSubstr linuxScriptContent PROBE_URL = false
    ∧ containsSubstr macosScriptContent PROBE_URL = false :=
  ⟨windowsScript_has_probe, by decide, by decide⟩

/-- C3 amended: all three rendered artifacts embed the fixed login
endpoint URL and the three-field payload of the §6 contract, and rendering
is byte-for-byte reproducible (it depends only on the profile's OS kind);
but the control flow is not in lockstep: only the Windows template
contains the detect step, and there the login request sits under the
`if (NeedsLogin)` guard in the template text — a flow the artifact never
executes, being a PowerShell parse error — while the Linux and macOS
flows issue no probe at all and, once the login stage is reached, always
issue the login POST. -/
theorem render_login_contract_reproducible_and_flow :
    (∀ p : PlatformProfile, hasLoginContract (render p) = true)
    ∧ (∀ p q : PlatformProfile, p.os_kind = q.os_kind → render p = render q)
    ∧ containsSubstr windowsScriptContent "if (NeedsLogin) \x7b" = true
    ∧ containsSubstr windowsScriptContent "$LOGIN_URL = \"$LOGIN_URL = \"" = true
    ∧ (∀ ce jq cok curlok (ssid u pw : String),
        (linuxScriptRun ce jq ssid u pw cok curlok).events.filter
          Event.isHttpGet = [])
    ∧ (∀ ce jq curlok (ssid u pw : String),
        (macosScriptRun ce jq ssid u pw curlok).events.filter
          Event.isHttpGet = [])
    ∧ (∀ curlok (ssid u pw : String),
        ((linuxScriptRun true true ssid u pw true curlok).events.filter
          Event.isHttpPost).length = 1)
    ∧ (∀ curlok (ssid u pw : String),
        ((macosScriptRun true true ssid u pw curlok).events.filter
          Event.isHttpPost).length = 1) := by
  refine ⟨?_, ?_, ?_, ?_, ?_, ?_, ?_, ?_⟩
  · intro p
    cases hp : p.os_kind with
    | windows => unfold render; rw [hp]; exact windowsScript_login_contract
    | linux => unfold render; rw [hp]; exact linuxScript_login_contract
    | darwin => unfold render; rw [hp]; exact macosScript_login_contract
  · intro p q h
    unfold render
    rw [h]
  · exact containsSubstr_joinLines "if (NeedsLogin) \x7b" windowsScriptLines
      (windowsScriptLines.get ⟨57, by decide⟩) (List.get_mem _ _ _) (by decide)
  · exact containsSubstr_joinLines "$LOGIN_URL = \"$LOGIN_URL = \"" windowsScriptLines
      (windowsScriptLines.get ⟨18, by decide⟩) (List.get_mem _ _ _) (by decide)
  · intro ce jq cok curlok ssid u pw
    cases ce <;> cases jq <;> cases cok <;>
      simp [linuxScriptRun, Event.isHttpGet]
  · intro ce jq curlok ssid u pw
    cases ce <;> cases jq <;>
      simp [macosScriptRun, Event.isHttpGet]
  · intro curlok ssid u pw
    simp [linuxScriptRun, Event.isHttpPost]
  · intro curlok ssid u pw
    simp [macosScriptRun, Event.isHttpPost]

/-- Witness for C3 amended: the profile-determinism conjunct at two
concrete Linux profiles differing outside `os_kind`. -/
theorem render_login_contract_reproducible_and_flow_witness :
    (PlatformProfile.mk OSKind.linux
        "/home/u/.local/share/netconnect/wifi_connect.sh"
        "/home/u/.config/autostart/netconnect.desktop").os_kind
      = (PlatformProfile.mk OSKind.linux "/tmp/a.sh" "/tmp/b.desktop").os_kind
    ∧ render (PlatformProfile.mk OSKind.linux
        "/home/u/.local/share/netconnect/wifi_connect.sh"
        "/home/u/.config/autostart/netconnect.desktop")
      = render (PlatformProfile.mk OSKind.linux "/tmp/a.sh" "/tmp/b.desktop") :=
  ⟨rfl, render_login_contract_reproducible_and_flow.2.1 _ _ rfl⟩

/-- C8: the Windows connector treats stdout without the completion phrase
as a soft failure — it logs the warning and returns without `sys.exit` —
while on Linux a `CalledProcessError` from `nmcli` exits with code 1, and
in the generated Linux script a failed `nmcli` ends the run with exit code
1 and no probe or login request at all. -/
theorem windows_soft_linux_hard_failure (ssid out u pw : String) (curlok : Bool)
    (h : containsSubstr out "Connection request was completed successfully" = false) :
    (WindowsWiFiConnector.connect ssid (.completed out)).exitCode = none
    ∧ Event.printLine ("⚠️ Connection may have failed:\n" ++ out)
        ∈ (WindowsWiFiConnector.connect ssid (.completed out)).events
    ∧ (LinuxWiFiConnector.connect ssid .calledProcessError).exitCode = some 1
    ∧ (linuxScriptRun true true ssid u pw false curlok).events.filter
        Event.isHttpRequest = []
    ∧ (linuxScriptRun true true ssid u pw false curlok).exitCode = 1 := by
  refine ⟨?_, ?_, rfl, ?_, rfl⟩ <;>
    simp [WindowsWiFiConnector.connect, LinuxWiFiConnector.connect,
      linuxScriptRun, h, Event.isHttpRequest]

/-- Witness for C8 at a concrete input: stdout lacking the completion
phrase. -/
theorem windows_soft_linux_hard_failure_witness :
    containsSubstr "The network specified does not exist."
      "Connection request was completed successfully" = false
    ∧ ((WindowsWiFiConnector.connect "G-VIT"
          (.completed "The network specified does not exist.")).exitCode = none
       ∧ Event.printLine
            ("⚠️ Connection may have failed:\n" ++ "The network specified does not exist.")
          ∈ (WindowsWiFiConnector.connect "G-VIT"
              (.completed "The network specified does not exist.")).events
       ∧ (LinuxWiFiConnector.connect "G-VIT" .calledProcessError).exitCode = some 1
       ∧ (linuxScriptRun true true "G-VIT" "21BCE1234" "secret" false true).events.filter
           Event.isHttpRequest = []
       ∧ (linuxScriptRun true true "G-VIT" "21BCE1234" "secret" false true).exitCode = 1) :=
  ⟨by decide, windows_soft_linux_hard_failure _ _ _ _ _ (by decide)⟩

/-! ## Keyed-store lemmas for the registrar -/

theorem insertOnce_idem (x : String) (l : List String) :
    insertOnce x (insertOnce x l) = insertOnce x l := by
  by_cases h : x ∈ l <;> simp [insertOnce, h]

theorem mem_insertOnce (x : String) (l : List String) : x ∈ insertOnce x l := by
  by_cases h : x ∈ l <;> simp [insertOnce, h]

theorem filter_key_filter_ne (key : String) (l : List (String × String)) :
    (l.filter (fun kv => kv.1 != key)).filter (fun kv => kv.1 == key) = [] := by
  rw [List.filter_filter, List.filter_eq_nil_iff]
  intro a _
  cases h : a.1 == key <;> simp [bne, h]

theorem setEntry_idem (key value : String) (l : List (String × String)) :
    setEntry key value (setEntry key value l) = setEntry key value l := by
  simp [setEntry, List.filter_filter]

theorem countKey_setEntry (key value : String) (l : List (String × String)) :
    countKey key (setEntry key value l) = 1 := by
  simp [countKey, setEntry, filter_key_filter_ne]

/-- C10: startup registration is idempotent.  On Linux and macOS the
missing parent directory is created before the file write and a second run
with the same platform/artifact reproduces the very same state with a
single registration entry (no duplicate `.desktop`/plist); on Windows a
second `SetValueEx` overwrites the same single registry value. -/
theorem register_idempotent_and_creates_parent
    (home app script : String) (lOk : Bool) (s : SysState) :
    ((createLinuxStartup home app script
        (createLinuxStartup home app script s).state).state
      = (createLinuxStartup home app script s).state)
    ∧ countKey (home ++ "/.config/autostart" ++ "/" ++ lowerStr app ++ ".desktop")
        ((createLinuxStartup home app script
          (createLinuxStartup home app script s).state).state.files) = 1
    ∧ (home ++ "/.config/autostart") ∈ (createLinuxStartup home app script s).state.dirs
    ∧ Event.mkdirP (home ++ "/.config/autostart")
        ∈ ((createLinuxStartup home app script s).events.takeWhile
            (fun e => !Event.isFileWrite e))
    ∧ ((createMacosStartup home app script lOk
        (createMacosStartup home app script lOk s).state).state
      = (createMacosStartup home app script lOk s).state)
    ∧ countKey (home ++ "/Library/LaunchAgents" ++ "/com." ++ lowerStr app
          ++ ".autoconnect.plist")
        ((createMacosStartup home app script lOk
          (createMacosStartup home app script lOk s).state).state.files) = 1
    ∧ (home ++ "/Library/LaunchAgents")
        ∈ (createMacosStartup home app script lOk s).state.dirs
    ∧ Event.mkdirP (home ++ "/Library/LaunchAgents")
        ∈ ((createMacosStartup home app script lOk s).events.takeWhile
            (fun e => !Event.isFileWrite e))
    ∧ ((createWindowsStartup app script
        (createWindowsStartup app script s).state).state
      = (createWindowsStartup app script s).state)
    ∧ (s.runKeyExists = true →
        countKey app ((createWindowsStartup app script
          (createWindowsStartup app script s).state).state.registry) = 1) := by
  refine ⟨?_, ?_, ?_, ?_, ?_, ?_, ?_, ?_, ?_, ?_⟩
  · simp [createLinuxStartup, insertOnce_idem, setEntry_idem]
  · simp [createLinuxStartup, setEntry_idem, countKey_setEntry]
  · simp [createLinuxStartup, mem_insertOnce]
  · simp [createLinuxStartup, Event.isFileWrite, List.takeWhile_cons]
  · simp [createMacosStartup, insertOnce_idem, setEntry_idem]
  · simp [createMacosStartup, setEntry_idem, countKey_setEntry]
  · simp [createMacosStartup, mem_insertOnce]
  · simp [createMacosStartup, Event.isFileWrite, List.takeWhile_cons]
  · by_cases hk : s.runKeyExists <;>
      simp [createWindowsStartup, hk, setEntry_idem]
  · intro hk
    simp [createWindowsStartup, hk, setEntry_idem, countKey_setEntry]

/-- Witness for C10 on a concrete host state whose Run key exists. -/
theorem register_idempotent_and_creates_parent_witness :
    (SysState.mk [] [] [] [] true).runKeyExists = true
    ∧ countKey "NetConnect"
        ((createWindowsStartup "NetConnect"
          "C:/Users/u/AppData/Local/NetConnect/wifi_connect.ps1"
          (createWindowsStartup "NetConnect"
            "C:/Users/u/AppData/Local/NetConnect/wifi_connect.ps1"
            (SysState.mk [] [] [] [] true)).state).state.registry) = 1 :=
  ⟨rfl, (register_idempotent_and_creates_parent "/home/u" "NetConnect"
    "C:/Users/u/AppData/Local/NetConnect/wifi_connect.ps1" true
    (SysState.mk [] [] [] [] true)).2.2.2.2.2.2.2.2.2 rfl⟩

/-! ## The interactive entry point issues no network or WiFi commands -/

theorem clear_screen_benign (os : OSName) : (clear_screen os).all benign = true := by
  unfold clear_screen
  dsimp only
  split
  · rfl
  · split
    · rfl
    · rfl

theorem show_splash_benign (splash : Option String) :
    (show_splash splash).all benign = true := by
  cases splash <;> rfl

theorem create_new_user_benign (home : String) :
    ∀ (fuel : Nat) (inputs : List String),
      ((create_new_user home fuel inputs).1).all benign = true := by
  intro fuel
  induction fuel with
  | zero => intro inputs; rfl
  | succ n ih =>
    intro inputs
    rw [create_new_user]
    split
    · simp only [List.all_append, List.all_cons, List.all_nil, Bool.and_eq_true, ih]
      simp [benign, Event.isHttpRequest, Event.isWifiConnectCmd]
    · simp [benign, Event.isHttpRequest, Event.isWifiConnectCmd]

theorem edit_existing_user_benign (home : String) (creds : Option Cred) :
    ∀ (fuel : Nat) (inputs : List String),
      ((edit_existing_user home creds fuel inputs).1).all benign = true := by
  intro fuel
  induction fuel with
  | zero => intro inputs; rfl
  | succ n ih =>
    intro inputs
    unfold edit_existing_user
    cases creds with
    | none => rfl
    | some c =>
      dsimp only
      split
      · simp [benign, Event.isHttpRequest, Event.isWifiConnectCmd]
      · split
        · simp [benign, Event.isHttpRequest, Event.isWifiConnectCmd]
        · split
          · simp [benign, Event.isHttpRequest, Event.isWifiConnectCmd]
          · split
            · simp [benign, Event.isHttpRequest, Event.isWifiConnectCmd]
            · simp only [List.all_append, List.all_cons, List.all_nil,
                Bool.and_eq_true, ih]
              simp [benign, Event.isHttpRequest, Event.isWifiConnectCmd]

theorem main_menu_benign (home : String) (creds : Option Cred) :
    ∀ (fuel : Nat) (inputs : List String),
      ((main_menu home creds fuel inputs).1).all benign = true := by
  intro fuel
  induction fuel with
  | zero => intro inputs; rfl
  | succ n ih =>
    intro inputs
    rw [main_menu]
    split
    · simp only [List.all_append, List.all_cons, List.all_nil, Bool.and_eq_true,
        create_new_user_benign]
      simp [benign, Event.isHttpRequest, Event.isWifiConnectCmd]
    · split
      · simp only [List.all_append, List.all_cons, List.all_nil, Bool.and_eq_true,
          edit_existing_user_benign]
        simp [benign, Event.isHttpRequest, Event.isWifiConnectCmd]
      · split
        · simp [benign, Event.isHttpRequest, Event.isWifiConnectCmd]
        · simp only [List.all_append, List.all_cons, List.all_nil, Bool.and_eq_true, ih]
          simp [benign, Event.isHttpRequest, Event.isWifiConnectCmd]

theorem createWindowsStartup_benign (app script : String) (s : SysState) :
    ((createWindowsStartup app script s).events).all benign = true := by
  unfold createWindowsStartup
  split <;> rfl

theorem createLinuxStartup_benign (home app script : String) (s : SysState) :
    ((createLinuxStartup home app script s).events).all benign = true := rfl

theorem createMacosStartup_benign (home app script : String) (lOk : Bool) (s : SysState) :
    ((createMacosStartup home app script lOk s).events).all benign = true := by
  cases lOk <;> rfl

theorem setup_startup_benign (home : String) (k : OSKind) (env : MainEnv) :
    ((setup_startup home k env).2).all benign = true := by
  unfold setup_startup
  dsimp only
  split
  · rfl
  · split
    · rfl
    · cases k <;>
        · simp only [List.all_append, List.all_cons, List.all_nil, Bool.and_eq_true,
            createWindowsStartup_benign, createLinuxStartup_benign,
            createMacosStartup_benign]
          simp [benign, Event.isHttpRequest, Event.isWifiConnectCmd]

theorem mainSetupStartup_benign (os : OSName) (env : MainEnv) :
    ((mainSetupStartup os env).1).all benign = true := by
  cases os <;>
    simp [mainSetupStartup, OSName.toKind?, setup_startup_benign, benign,
      Event.isHttpRequest, Event.isWifiConnectCmd]

/-- C2: every execution of `main` — over every OS, environment, input
stream and fuel bound — issues no HTTP request and spawns no native
WiFi-connect command; the same `benign` test does flag every
`WiFiConnector.connect` trace and every `portalAuth.login` trace, so
neither is reachable from `main`. -/
theorem main_issues_no_http_and_no_wifi_connect
    (os : OSName) (env : MainEnv) (inputs : List String) (fuel : Nat) :
    ((mainRun os env inputs fuel).1).all benign = true
    ∧ (∀ ssid (o : WinRunOutcome),
        (WindowsWiFiConnector.connect ssid o).events.any Event.isWifiConnectCmd = true)
    ∧ (∀ ssid (o : PosixRunOutcome),
        (LinuxWiFiConnector.connect ssid o).events.any Event.isWifiConnectCmd = true)
    ∧ (∀ u p (r : HttpPostResult),
        (login u p r).events.any Event.isHttpRequest = true) := by
  refine ⟨?_, ?_, ?_, ?_⟩
  · have h1 := clear_screen_benign os
    have h2 := show_splash_benign env.splash
    have h3 := main_menu_benign env.home env.creds fuel inputs
    have h4 := mainSetupStartup_benign os env
    unfold mainRun
    dsimp only
    split <;>
      · simp only [List.all_append, List.all_cons, List.all_nil, Bool.and_eq_true,
          h1, h2, h3, h4]
        simp [benign, Event.isHttpRequest, Event.isWifiConnectCmd]
  · intro ssid o
    cases o with
    | completed stdout =>
      unfold WindowsWiFiConnector.connect
      dsimp only
      split
      · rfl
      · rfl
    | raised msg => rfl
  · intro ssid o
    cases o <;> rfl
  · intro u p r
    cases r <;> rfl

/-- C4 at the failing input (code bug): on Linux, when writing the
connection script fails, `StartupGenerator.setup_startup` catches the
error and returns `(False, msg)`, `main` ignores the returned pair, and
the process exits 0 — the spec requires a non-zero exit for a script-write
failure.  Only the unsupported-OS error actually produces exit code 1. -/
theorem setup_write_failure_exits_zero :
    (mainRun OSName.linux
        (MainEnv.mk "/home/u" none none false true true true)
        ["1", "G-VIT", "21BCE1234", "secret"] 3).2 = 0
    ∧ ((setup_startup "/home/u" OSKind.linux
        (MainEnv.mk "/home/u" none none false true true true)).1).1 = false
    ∧ (mainRun (OSName.other "FreeBSD")
        (MainEnv.mk "/home/u" none none false false true true)
        ["1", "G-VIT", "21BCE1234", "secret"] 3).2 = 1 := by
  refine ⟨?_, rfl, ?_⟩ <;> rfl

end NetConnect
